import Mathlib

/-!
Verification of the Samilink order-lifecycle core against its specification.

The definitions below are a shallow embedding of the Python/Django source:

* `agreements/models.py`   — the `Milestone` state machine (`mark_delivered`,
  `approve`, `reject`, `mark_paid`).
* `agreements/views.py`    — `_set_db_field`, the milestone HTTP endpoints,
  and the agreement `edit` view (save/send with reconciliation).
* `agreements/forms.py`    — `_BaseMilestoneFormSet.clean` (formset-level
  reconciliation and structural validation).
* `agreements/signals.py`  — `handle_milestone_post_save`.
* `marketplace/models.py`  — `Request.mark_offer_selected_now`, statuses.
* `marketplace/views.py`   — `select_offer`, `request_change_state`,
  `request_cancel`.
* `marketplace/signals.py` — `handle_offer_selection`.
* `finance/models.py`      — `Invoice.mark_paid`.
* `finance/views.py`       — `_can_complete_request`,
  `_complete_request_if_all_paid`, `mark_invoice_paid`.
* `disputes/views.py`      — `_freeze_request`, `_unfreeze_request`,
  `dispute_update_status`.

Conventions: monetary amounts are integer cents (all Decimal fields in the
source have two decimal places and are quantized to 0.01 on save); times are
natural-number seconds; all entity status fields are strings, exactly as the
source stores loosely-typed status strings (this matters: the `Request.Status`
enum declares the value `"dispute"` while the dispute freeze stores the raw
string `"disputed"`, and `request_change_state` can store `"awaiting_review"`
and `"awaiting_payment"`).
-/

/-- Three days in seconds (`timedelta(days=3)` in the source). -/
def threeDaysSecs : Nat := 3 * 86400

/-- Python `str.strip()`: drop leading and trailing whitespace. -/
def pyStrip (s : String) : String :=
  ⟨(((s.data.dropWhile Char.isWhitespace).reverse.dropWhile Char.isWhitespace).reverse)⟩

/-! ### Milestone rows (`agreements/models.py`, class `Milestone`) -/

/-- A `Milestone` row: the database fields the lifecycle touches.
`amount` is in cents; `status` is one of
pending/delivered/approved/rejected/paid. -/
structure MsRec where
  id : Nat
  amount : Int
  status : String
  deliveredAt : Option Nat
  deliveredNote : String
  approvedAt : Option Nat
  rejectedReason : String
  paidAt : Option Nat
  deriving Repr, DecidableEq

/-- `Milestone.mark_delivered` (agreements/models.py):
refused when the milestone is approved or paid; otherwise moves to
`delivered`, stamps the delivery, stores the stripped note and clears any
previous rejection/approval. `none` models the raised `ValidationError`. -/
def markDelivered (m : MsRec) (note : String) (now : Nat) : Option MsRec :=
  if m.status = "approved" ∨ m.status = "paid" then none
  else some { m with
    status := "delivered"
    deliveredAt := some now
    deliveredNote := pyStrip note
    rejectedReason := ""
    approvedAt := none }

/-- `Milestone.approve` (agreements/models.py): refused when paid, and
refused unless currently delivered (`is_pending_review`); otherwise moves to
`approved` and stamps the approval. -/
def approveMilestone (m : MsRec) (now : Nat) : Option MsRec :=
  if m.status = "paid" then none
  else if ¬ (m.status = "delivered") then none
  else some { m with
    status := "approved"
    approvedAt := some now
    rejectedReason := "" }

/-- `Milestone.reject` (agreements/models.py): the stripped reason must have
at least 3 characters; refused when paid, and refused unless currently
delivered; otherwise moves to `rejected`, clears the approval and records
the reason. -/
def rejectMilestone (m : MsRec) (reason : String) : Option MsRec :=
  let r := pyStrip reason
  if r.length < 3 then none
  else if m.status = "paid" then none
  else if ¬ (m.status = "delivered") then none
  else some { m with
    status := "rejected"
    approvedAt := none
    rejectedReason := r }

/-- `Milestone.mark_paid` (agreements/models.py): refused unless currently
approved; otherwise moves to `paid` and stamps the payment. -/
def markPaidMilestone (m : MsRec) (now : Nat) : Option MsRec :=
  if ¬ (m.status = "approved") then none
  else some { m with status := "paid", paidAt := some now }

/-- The five declared `Milestone.Status` values. -/
def milestoneStatuses : List String :=
  ["pending", "delivered", "approved", "rejected", "paid"]

/-! ### `_set_db_field` and the milestone HTTP endpoints (agreements/views.py) -/

/-- Attribute names implemented as Python `@property` on `Milestone`
(agreements/models.py): `_set_db_field` refuses to write any of these. -/
def milestonePropertyNames : List String :=
  ["is_delivered", "is_pending_review", "is_approved", "is_rejected", "is_paid"]

/-- The database column names of `Milestone` (agreements/models.py).
`Milestone` has no `updated_at` column, so `_set_db_field` also skips that
name. -/
def milestoneFieldNames : List String :=
  ["agreement", "title", "amount", "order", "due_days", "status",
   "delivered_at", "delivered_note", "approved_at", "approved_by",
   "rejected_reason", "paid_at", "created_at", "id"]

/-- `_set_db_field` (agreements/views.py): applies `writer` and records the
name in `update_fields` only when `name` is a real database column and is
not shadowed by a `@property`; otherwise it does nothing. -/
def setDbField (name : String) (writer : MsRec → MsRec)
    (st : MsRec × List String) : MsRec × List String :=
  if milestonePropertyNames.contains name then st
  else if milestoneFieldNames.contains name then (writer st.1, st.2 ++ [name])
  else st

/-- The `_set_db_field` sequence of `milestone_deliver` (agreements/views.py).
The `is_delivered` writer shows the effect the `@property` setter would have
had (it calls `mark_delivered`, which rewrites `status`); the helper skips
it, together with the read-only properties `is_pending_review` and
`is_rejected` and the non-existent column `updated_at`. -/
def deliverWrites (m : MsRec) (note : String) (now : Nat) : MsRec × List String :=
  (m, [])
  |> setDbField "delivered_at" (fun x => { x with deliveredAt := some now })
  |> setDbField "delivered_note" (fun x => { x with deliveredNote := note })
  |> setDbField "is_delivered"
      (fun x => { x with status := "delivered", deliveredAt := some now,
                         deliveredNote := pyStrip x.deliveredNote,
                         rejectedReason := "", approvedAt := none })
  |> setDbField "is_pending_review" (fun x => x)
  |> setDbField "is_rejected" (fun x => x)
  |> setDbField "rejected_reason" (fun x => { x with rejectedReason := "" })
  |> setDbField "updated_at" (fun x => x)

/-- The `_set_db_field` sequence of `milestone_approve` (agreements/views.py). -/
def approveWrites (m : MsRec) (now : Nat) : MsRec × List String :=
  (m, [])
  |> setDbField "approved_at" (fun x => { x with approvedAt := some now })
  |> setDbField "is_approved" (fun x => x)
  |> setDbField "is_pending_review" (fun x => x)
  |> setDbField "is_rejected" (fun x => x)
  |> setDbField "updated_at" (fun x => x)

/-- The `_set_db_field` sequence of `milestone_reject` (agreements/views.py);
`reason` is already stripped and truncated to 500 characters by the view. -/
def rejectWrites (m : MsRec) (reason : String) : MsRec × List String :=
  (m, [])
  |> setDbField "rejected_reason" (fun x => { x with rejectedReason := reason.take 500 })
  |> setDbField "is_rejected" (fun x => x)
  |> setDbField "is_pending_review" (fun x => x)
  |> setDbField "is_approved" (fun x => x)
  |> setDbField "updated_at" (fun x => x)

/-- `milestone_deliver` (agreements/views.py), milestone part: permission
guard, then refusal when the milestone is approved or paid, then the
`_set_db_field` writes. -/
def milestoneDeliverView (m : MsRec) (note : String) (now : Nat)
    (canDeliver : Bool) : MsRec × List String :=
  if ¬ canDeliver then (m, [])
  else if m.status = "approved" ∨ m.status = "paid" then (m, [])
  else deliverWrites m (pyStrip note) now

/-- `milestone_reject` (agreements/views.py), milestone part: permission
guard, `is_pending_review` guard (status must be `delivered`), minimum
reason length 3, then the `_set_db_field` writes. -/
def milestoneRejectView (m : MsRec) (reason : String)
    (canReject : Bool) : MsRec × List String :=
  if ¬ canReject then (m, [])
  else if ¬ (m.status = "delivered") then (m, [])
  else if (pyStrip reason).length < 3 then (m, [])
  else rejectWrites m (pyStrip reason)

/-! ### Invoices and the approve endpoint (finance/models.py, agreements/views.py) -/

/-- An `Invoice` row (finance/models.py). `milestoneId` is the nullable
`milestone` foreign key; note the model has columns `method` and `ref_code`
but no column named `paid_ref`. -/
structure InvRec where
  id : Nat
  milestoneId : Option Nat
  amount : Int
  status : String
  issuedAt : Option Nat
  dueAt : Option Nat
  paidAt : Option Nat
  method : String
  refCode : String
  deriving Repr, DecidableEq

/-- `_touch_request_in_progress` (agreements/views.py and finance/views.py):
push the request to `in_progress` only from the early states. -/
def touchRequestInProgress (st : String) : String :=
  if st = "new" ∨ st = "offer_selected" ∨ st = "agreement_pending" then "in_progress"
  else st

/-- Division of cents rounded half-up (the effect of Python Decimal division
followed by `quantize(Decimal("0.01"), ROUND_HALF_UP)` on save), for a
nonnegative numerator. -/
def roundHalfUpDiv (a : Int) (b : Nat) : Int := (2 * a + b) / (2 * b)

/-- The even split used by `milestone_approve`:
`total / max(agreement.milestones.count(), 1)`. -/
def evenSplitCents (total : Int) (count : Nat) : Int :=
  roundHalfUpDiv total (max count 1)

/-- The invoice amount computed by `milestone_approve`
(agreements/views.py): the milestone amount when truthy (non-zero),
otherwise the even split of the agreement total, or 0 when the total is
itself zero. -/
def invoiceAmountFor (msAmount total : Int) (count : Nat) : Int :=
  if msAmount ≠ 0 then msAmount
  else if total ≠ 0 then evenSplitCents total count
  else 0

/-- `Invoice.objects.get_or_create(milestone=ms, ...)`: look the invoice up
by its milestone link. -/
def findInvoiceFor (invoices : List InvRec) (mid : Nat) : Option InvRec :=
  invoices.find? (fun i => i.milestoneId = some mid)

/-- The slice of state `milestone_approve` touches: the request and
agreement statuses, the agreement total (cents) and its milestone count,
the milestone being approved, and the agreement's invoices. `nextInvId` is
the next free invoice primary key. -/
structure AgreementSys where
  reqStatus : String
  agStatus : String
  total : Int
  msCount : Nat
  ms : MsRec
  invoices : List InvRec
  nextInvId : Nat
  deriving Repr, DecidableEq

/-- `milestone_approve` (agreements/views.py): permission guard, the
`is_pending_review` guard (status must be `delivered`), the `is_paid`
guard, then: `_set_db_field` writes on the milestone (which leave `status`
alone), `_touch_request_in_progress`, and `get_or_create` of the invoice —
creating it `unpaid` with the computed amount and `issued_at = now` (the
model default), then setting `due_at = issued_at + 3 days` when unset. -/
def milestoneApproveView (s : AgreementSys) (now : Nat)
    (canApprove : Bool) : AgreementSys :=
  if ¬ canApprove then s
  else if ¬ (s.ms.status = "delivered") then s
  else if s.ms.status = "paid" then s
  else
    let ms1 := (approveWrites s.ms now).1
    let reqStatus1 := touchRequestInProgress s.reqStatus
    let amount := invoiceAmountFor s.ms.amount s.total s.msCount
    match findInvoiceFor s.invoices s.ms.id with
    | some inv =>
        let inv1 := if inv.issuedAt = none then { inv with issuedAt := some now } else inv
        let inv2 := if inv1.dueAt = none then
            { inv1 with dueAt := some (inv1.issuedAt.getD now + threeDaysSecs) }
          else inv1
        { s with ms := ms1, reqStatus := reqStatus1,
                 invoices := s.invoices.map (fun i => if i.id = inv.id then inv2 else i) }
    | none =>
        let created : InvRec :=
          { id := s.nextInvId, milestoneId := some s.ms.id, amount := amount,
            status := "unpaid", issuedAt := some now, dueAt := some (now + threeDaysSecs),
            paidAt := none, method := "", refCode := "" }
        { s with ms := ms1, reqStatus := reqStatus1,
                 invoices := s.invoices ++ [created], nextInvId := s.nextInvId + 1 }

/-! ### Agreement edit / send (agreements/views.py `edit`, agreements/forms.py) -/

/-- One submitted milestone form row: amount in cents, the posted order, and
the `DELETE` flag of the inline formset. -/
structure MsRow where
  amount : Int
  order : Nat
  delete : Bool
  deriving Repr, DecidableEq

/-- The slice of state the agreement `edit` view touches: the Agreement
status and total, the Request status, and the persisted milestone rows. -/
structure EditState where
  agStatus : String
  agTotal : Int
  reqStatus : String
  milestones : List MsRow
  deriving Repr, DecidableEq

/-- Typed failures of the edit operation: `validationFailure` for the
structural formset errors, `reconciliationMismatch` for the sum-vs-total
check (the formset error message naming the milestone sum and the total). -/
inductive EditError where
  | validationFailure
  | reconciliationMismatch
  deriving Repr, DecidableEq

/-- Sum of the amounts of the given rows (`_sum_milestones` over non-deleted
forms; also the total computed by the formset `clean`). -/
def sumAmounts (rows : List MsRow) : Int := (rows.map (fun r => r.amount)).sum

/-- The non-deleted rows of the submitted formset (`forms_active`). -/
def activeRows (rows : List MsRow) : List MsRow := rows.filter (fun r => ¬ r.delete)

/-- `_BaseMilestoneFormSet.clean` (agreements/forms.py), run by
`formset.is_valid()` before anything is saved: at least one non-deleted
row; every order ≥ 1 with no duplicates; every amount ≥ 0; and the
reconciliation check — the sum of the non-deleted amounts must equal the
agreement total (their difference quantized to 0.01 must be zero, which on
two-decimal inputs is equality in cents). -/
def formsetClean (total : Int) (rows : List MsRow) : Option EditError :=
  if (activeRows rows).isEmpty then some .validationFailure
  else if (activeRows rows).any (fun r => r.order < 1) then some .validationFailure
  else if ((activeRows rows).map (fun r => r.order)).eraseDups.length ≠
          ((activeRows rows).map (fun r => r.order)).length then some .validationFailure
  else if (activeRows rows).any (fun r => r.amount < 0) then some .validationFailure
  else if sumAmounts (activeRows rows) ≠ total then some .reconciliationMismatch
  else none

/-- `_assign_auto_order` (agreements/views.py): renumber the non-deleted
rows 1..N. -/
def assignAutoOrder (rows : List MsRow) : List MsRow :=
  rows.enum.map (fun p => { p.2 with order := p.1 + 1 })

/-- The `edit` view, POST with `action = "send"` (agreements/views.py), for a
valid `AgreementEditForm` (whose only fields, title and text, touch neither
the reconciliation data nor any status, and whose core fields are locked by
`_lock_core_fields_if_needed`): if the formset fails validation nothing is
written; otherwise form and formset are saved inside `transaction.atomic()`
with orders renumbered 1..N, and the view re-checks the milestone sum
against the total — on mismatch it returns an error response (the writes so
far are NOT rolled back: the `with` block exits normally), on match it sets
the Agreement to `pending` and, via `_update_request_status_on_send`, the
Request to `agreement_pending`. -/
def editSend (s : EditState) (rows : List MsRow) : EditState × Option EditError :=
  match formsetClean s.agTotal rows with
  | some e => (s, some e)
  | none =>
    if sumAmounts (assignAutoOrder (activeRows rows)) ≠ s.agTotal then
      ({ s with milestones := assignAutoOrder (activeRows rows) },
       some .reconciliationMismatch)
    else
      ({ s with milestones := assignAutoOrder (activeRows rows),
                agStatus := "pending", reqStatus := "agreement_pending" }, none)

/-! ### Offer selection (marketplace/views.py `select_offer`,
marketplace/signals.py `handle_offer_selection`,
marketplace/models.py `Request.mark_offer_selected_now`) -/

/-- An `Offer` row: primary key, bidding employee, and status
(pending/selected/rejected/withdrawn). -/
structure OfferRec where
  id : Nat
  employee : Nat
  status : String
  deriving Repr, DecidableEq

/-- The `Request` fields the selection flow touches: status, assigned
employee, and the SLA columns. -/
structure ReqRec where
  status : String
  assignedEmployee : Option Nat
  offerSelectedAt : Option Nat
  agreementDueAt : Option Nat
  slaAgreementOverdue : Bool
  deriving Repr, DecidableEq

/-- `Request.mark_offer_selected_now` (marketplace/models.py): assign the
employee, set status `offer_selected`, stamp the selection time, set the
agreement deadline to now + 3 days, and clear the SLA overdue flag. -/
def markOfferSelectedNow (r : ReqRec) (emp : Nat) (now : Nat) : ReqRec :=
  { r with
    assignedEmployee := some emp
    status := "offer_selected"
    offerSelectedAt := some now
    agreementDueAt := some (now + threeDaysSecs)
    slaAgreementOverdue := false }

/-- `select_offer` (marketplace/views.py) followed by the
`handle_offer_selection` post-save signal (marketplace/signals.py): a no-op
when the offer is already selected, or when the request is not `new` or
already assigned; otherwise the offer becomes `selected`, the signal
updates the request via `mark_offer_selected_now`, and every other offer on
the request is set to `rejected`. -/
def selectOffer (req : ReqRec) (offers : List OfferRec) (oid : Nat)
    (now : Nat) : ReqRec × List OfferRec :=
  match offers.find? (fun o => o.id = oid) with
  | none => (req, offers)
  | some off =>
    if off.status = "selected" then (req, offers)
    else if ¬ (req.status = "new") ∨ ¬ (req.assignedEmployee = none) then (req, offers)
    else
      let offers1 := offers.map (fun o => if o.id = oid then { o with status := "selected" } else o)
      let req1 := markOfferSelectedNow req off.employee now
      let offers2 := offers1.map (fun o => if ¬ (o.id = oid) then { o with status := "rejected" } else o)
      (req1, offers2)

/-! ### Invoice payment and auto-completion (finance/models.py,
finance/views.py, agreements/signals.py) -/

/-- The state the payment flow touches: one Request, its Agreement (status
only), the Agreement's milestones and invoices. `nextInvId` is the next
free invoice primary key. -/
structure Sys where
  reqStatus : String
  agStatus : String
  milestones : List MsRec
  invoices : List InvRec
  nextInvId : Nat
  deriving Repr, DecidableEq

/-- `_can_complete_request` (finance/views.py): completion is withheld when
the request status is `disputed` or `cancelled`. (`Request.Status` has no
`DISPUTED` member — its declared value is `dispute` — so the view compares
against the raw fallback strings.) -/
def canCompleteRequest (st : String) : Bool :=
  if st = "disputed" ∨ st = "cancelled" then false else true

/-- `_complete_request_if_all_paid` (finance/views.py): when the agreement
has at least one invoice and every invoice is paid, and the request is
neither disputed/cancelled nor already completed, mark the request (and the
agreement) `completed`. -/
def completeRequestIfAllPaid (s : Sys) : Sys :=
  if s.invoices.isEmpty then s
  else if ¬ (s.invoices.all (fun i => i.status = "paid")) then s
  else if ¬ canCompleteRequest s.reqStatus then s
  else if s.reqStatus = "completed" then s
  else { s with
    reqStatus := "completed"
    agStatus := if ¬ (s.agStatus = "completed") then "completed" else s.agStatus }

/-- `handle_milestone_post_save` (agreements/signals.py), fired on every
`Milestone` save: (1) when the saved milestone is `approved` and has no
invoice, create an `unpaid` invoice with the milestone's amount; (2) when
the milestone is not yet `paid` but a paid invoice for it exists, flip it
to `paid` (copying the invoice's `paid_at`; at most one invoice per
milestone exists by `uniq_invoice_per_milestone`, so "the latest" is the
one found); (3) when the agreement has no unpaid invoice left, mark the
agreement AND the request `completed` — with no check of the request's
dispute state. -/
def paidInvoicePaidAt (invoices : List InvRec) (mid : Nat) : Option Nat :=
  (invoices.find? (fun i => i.milestoneId = some mid ∧ i.status = "paid")).bind
    (fun i => i.paidAt)

def handleMilestonePostSave (s : Sys) (mid : Nat) (now : Nat) : Sys :=
  let s1 :=
    match s.milestones.find? (fun m => m.id = mid) with
    | none => s
    | some ms =>
      let s2 :=
        if ms.status = "approved" ∧ ¬ s.invoices.any (fun i => i.milestoneId = some mid) then
          { s with
            invoices := s.invoices ++
              [⟨s.nextInvId, some mid, ms.amount, "unpaid", some now, none, none, "", ""⟩]
            nextInvId := s.nextInvId + 1 }
        else s
      if ¬ (ms.status = "paid")
          ∧ s2.invoices.any (fun i => i.milestoneId = some mid ∧ i.status = "paid") then
        { s2 with milestones := s2.milestones.map (fun m =>
            if m.id = mid then
              { m with status := "paid", paidAt := paidInvoicePaidAt s2.invoices mid }
            else m) }
      else s2
  if s1.invoices.any (fun i => i.status = "unpaid") then s1
  else { s1 with agStatus := "completed", reqStatus := "completed" }

/-- `Invoice.mark_paid` (finance/models.py): a no-op when already paid;
otherwise sets status `paid`, keeps or stamps `paid_at`, and records the
method and reference (falling back to the stored values, truncated). This
method is defined by the model but is not invoked by the payment endpoint. -/
def invoiceMarkPaid (inv : InvRec) (method refCode : String) (now : Nat) : InvRec :=
  if inv.status = "paid" then inv
  else { inv with
    status := "paid"
    method := (if ¬ (method = "") then method else inv.method).take 50
    refCode := (if ¬ (refCode = "") then refCode else inv.refCode).take 100
    paidAt := some (inv.paidAt.getD now) }

/-- Outcomes of the payment endpoint. -/
inductive PayOutcome where
  | notFound
  | alreadyPaid
  | rolledBack
  deriving Repr, DecidableEq

/-- `mark_invoice_paid` (finance/views.py), as the code actually behaves: an
already-paid invoice takes the early return and nothing changes. On an
unpaid invoice the view sets `inv.status` in memory and then
unconditionally executes `inv.is_paid = True`; `Invoice.is_paid`
(finance/models.py) is a read-only `@property` with no setter, so the
assignment raises `AttributeError` before the first `save()` is reached.
The broad `except Exception` handler calls `transaction.set_rollback(True)`,
so no write persists: the invoice is never marked paid, the posted
`paid_ref` is never stored, the linked milestone and the request are never
touched, and neither the milestone-save signal
`handle_milestone_post_save` nor `_complete_request_if_all_paid` is ever
reached from this endpoint. -/
def markInvoicePaid (s : Sys) (invId : Nat) (paidRef : String) (now : Nat) :
    Sys × PayOutcome :=
  match s.invoices.find? (fun i => i.id = invId) with
  | none => (s, PayOutcome.notFound)
  | some inv =>
    if inv.status = "paid" then (s, PayOutcome.alreadyPaid)
    else (s, PayOutcome.rolledBack)

/-! ### Dispute freeze / unfreeze (disputes/views.py) -/

/-- The state the dispute controller touches: the Dispute status, the
Request status, whether the Request has an Agreement, and the agreement's
invoices (which the claimed completion re-check would need). -/
structure DSys where
  disputeStatus : String
  reqStatus : String
  hasAgreement : Bool
  invoices : List InvRec
  deriving Repr, DecidableEq

/-- `_freeze_request` (disputes/views.py): `Request.Status` has no
`DISPUTED` member (the declared value is `dispute`), so the fallback branch
stores the raw string `"disputed"` when not already stored; `Request` has
no `is_frozen` column, so that branch is skipped. -/
def freezeRequest (s : DSys) : DSys :=
  if ¬ (s.reqStatus = "disputed") then { s with reqStatus := "disputed" } else s

/-- `_unfreeze_request` (disputes/views.py): when the status is the raw
string `"disputed"`, restore `in_progress` if the request has an agreement
and `new` otherwise; nothing else changes — in particular there is no
completion re-check. -/
def unfreezeRequest (s : DSys) : DSys :=
  if s.reqStatus = "disputed" then
    if s.hasAgreement then
      (if ¬ (s.reqStatus = "in_progress") then { s with reqStatus := "in_progress" } else s)
    else
      (if ¬ (s.reqStatus = "new") then { s with reqStatus := "new" } else s)
  else s

/-- `dispute_update_status` (disputes/views.py): map the action to the new
dispute status; resolve/cancel unfreeze the request, reopen re-freezes it,
review only moves the dispute to `in_review`; unknown actions change
nothing. -/
def disputeUpdateStatus (s : DSys) (action : String) : DSys :=
  if ¬ (action = "resolve" ∨ action = "cancel" ∨ action = "review" ∨ action = "reopen") then s
  else
    let newStatus :=
      if action = "resolve" then "resolved"
      else if action = "cancel" then "canceled"
      else if action = "review" then "in_review"
      else "open"
    let s1 := { s with disputeStatus := newStatus }
    if newStatus = "resolved" ∨ newStatus = "canceled" then unfreezeRequest s1
    else if newStatus = "open" then freezeRequest s1
    else s1

/-! ### Request status values (marketplace/models.py, marketplace/views.py) -/

/-- The seven status values the specification lists for `Request`. -/
def claimedStatuses : List String :=
  ["new", "offer_selected", "agreement_pending", "in_progress", "disputed",
   "completed", "cancelled"]

/-- The values actually declared by `Request.Status`
(marketplace/models.py): NEW, OFFER_SELECTED, AGREEMENT_PENDING,
IN_PROGRESS, COMPLETED, DISPUTE (value `dispute`), CANCELLED. -/
def requestStatusChoices : List String :=
  ["new", "offer_selected", "agreement_pending", "in_progress", "completed",
   "dispute", "cancelled"]

/-- Every status string the modeled request operations can leave stored:
the seven the spec lists plus `awaiting_review` and `awaiting_payment`,
which `request_change_state` stores. -/
def storableStatuses : List String :=
  claimedStatuses ++ ["awaiting_review", "awaiting_payment"]

/-- `request_change_state` (marketplace/views.py): the POSTed state must be
one of in_progress / awaiting_review / awaiting_payment / completed /
cancelled; an administrator may cancel from any state; otherwise the
transition must appear in the view's table (in_progress →
{awaiting_review, cancelled}, awaiting_review → {in_progress,
awaiting_payment}, awaiting_payment → {completed, cancelled}, completed →
∅, anything else → ∅). -/
def requestChangeState (cur newState : String) (isAdmin : Bool) : String :=
  if ¬ (newState = "in_progress" ∨ newState = "awaiting_review" ∨
        newState = "awaiting_payment" ∨ newState = "completed" ∨
        newState = "cancelled") then cur
  else if newState = "cancelled" ∧ isAdmin then "cancelled"
  else if cur = "in_progress" ∧ (newState = "awaiting_review" ∨ newState = "cancelled") then
    newState
  else if cur = "awaiting_review" ∧ (newState = "in_progress" ∨ newState = "awaiting_payment") then
    newState
  else if cur = "awaiting_payment" ∧ (newState = "completed" ∨ newState = "cancelled") then
    newState
  else cur

/-- `request_cancel` (marketplace/views.py): with a stripped reason of at
least 3 characters the request is set to `cancelled`. -/
def requestCancel (cur reason : String) : String :=
  if (pyStrip reason).length < 3 then cur else "cancelled"

/-! ### Theorems -/

/-- C5: the Milestone status-transition guards from `agreements/models.py`:
`deliver` fails exactly when the current status is approved or paid,
`approve` and `reject` succeed exactly from `delivered`, `pay` succeeds
exactly from `approved`, each successful action lands on its target status,
and no action changes a paid Milestone (paid is terminal), which is exactly
the path pending→delivered→{approved|rejected}→(delivered)*→approved→paid. -/
theorem milestone_transition_guards (m : MsRec) (note reason : String) (now : Nat)
    (hm : m.status ∈ milestoneStatuses) (hr : 3 ≤ (pyStrip reason).length) :
    ((markDelivered m note now).isSome ↔ (m.status ≠ "approved" ∧ m.status ≠ "paid"))
    ∧ ((approveMilestone m now).isSome ↔ m.status = "delivered")
    ∧ ((rejectMilestone m reason).isSome ↔ m.status = "delivered")
    ∧ ((markPaidMilestone m now).isSome ↔ m.status = "approved")
    ∧ (∀ m2, markDelivered m note now = some m2 → m2.status = "delivered")
    ∧ (∀ m2, approveMilestone m now = some m2 → m2.status = "approved")
    ∧ (∀ m2, rejectMilestone m reason = some m2 → m2.status = "rejected")
    ∧ (∀ m2, markPaidMilestone m now = some m2 → m2.status = "paid")
    ∧ (m.status = "paid" →
        markDelivered m note now = none ∧ approveMilestone m now = none
        ∧ rejectMilestone m reason = none ∧ markPaidMilestone m now = none) := by
  have hr3 : ¬ ((pyStrip reason).length < 3) := by omega
  simp only [milestoneStatuses, List.mem_cons, List.not_mem_nil, or_false] at hm
  rcases hm with h | h | h | h | h <;>
    simp [markDelivered, approveMilestone, rejectMilestone, markPaidMilestone, h, hr3]

/-- Witness for `milestone_transition_guards` at a concrete delivered
milestone and a concrete reason. -/
theorem milestone_transition_guards_witness :
    (approveMilestone ⟨1, 30000, "delivered", some 5, "done", none, "", none⟩ 9).isSome := by
  have h := milestone_transition_guards
    ⟨1, 30000, "delivered", some 5, "done", none, "", none⟩ "n" "bad work" 9
    (by decide) (by decide)
  exact h.2.1.mpr (by decide)

/-- C10: the milestone HTTP endpoints never write the `status` column: the
`_set_db_field` helper skips the `@property` attributes (`is_delivered`,
`is_pending_review`, `is_approved`, `is_rejected`) and the non-existent
`updated_at`, so `milestone_deliver` writes exactly `delivered_at`,
`delivered_note` and `rejected_reason`, `milestone_approve` writes exactly
`approved_at`, `milestone_reject` writes exactly `rejected_reason`, and each
endpoint leaves the Milestone's `status` unchanged. -/
theorem milestone_views_preserve_status
    (m : MsRec) (note reason : String) (now : Nat) (b : Bool) (s : AgreementSys) :
    (milestoneDeliverView m note now b).1.status = m.status
    ∧ (milestoneRejectView m reason b).1.status = m.status
    ∧ (milestoneApproveView s now b).ms.status = s.ms.status
    ∧ (deliverWrites m note now).2 = ["delivered_at", "delivered_note", "rejected_reason"]
    ∧ (approveWrites m now).2 = ["approved_at"]
    ∧ (rejectWrites m reason).2 = ["rejected_reason"] := by
  have hd : ∀ (x : MsRec) (nt : String) (n : Nat), (deliverWrites x nt n).1.status = x.status := by
    intro x nt n
    simp [deliverWrites, setDbField, milestonePropertyNames, milestoneFieldNames]
  have ha : ∀ (x : MsRec) (n : Nat), (approveWrites x n).1.status = x.status := by
    intro x n
    simp [approveWrites, setDbField, milestonePropertyNames, milestoneFieldNames]
  have hj : ∀ (x : MsRec) (r : String), (rejectWrites x r).1.status = x.status := by
    intro x r
    simp [rejectWrites, setDbField, milestonePropertyNames, milestoneFieldNames]
  refine ⟨?_, ?_, ?_, ?_, ?_, ?_⟩
  · unfold milestoneDeliverView
    split
    · rfl
    · split
      · rfl
      · exact hd m (pyStrip note) now
  · unfold milestoneRejectView
    split
    · rfl
    · split
      · rfl
      · split
        · rfl
        · exact hj m (pyStrip reason)
  · unfold milestoneApproveView
    split
    · rfl
    · split
      · rfl
      · split
        · rfl
        · simp only
          split
          · exact ha s.ms now
          · exact ha s.ms now
  · simp [deliverWrites, setDbField, milestonePropertyNames, milestoneFieldNames]
  · simp [approveWrites, setDbField, milestonePropertyNames, milestoneFieldNames]
  · simp [rejectWrites, setDbField, milestonePropertyNames, milestoneFieldNames]

/-- Auxiliary: `find?` skips a prefix none of whose elements satisfies `p`. -/
theorem find?_append_of_forall_not {α : Type} (p : α → Bool) (l1 l2 : List α)
    (h : ∀ x ∈ l1, ¬ p x) : (l1 ++ l2).find? p = l2.find? p := by
  induction l1 with
  | nil => simp
  | cons a t ih =>
    have ha : ¬ p a = true := h a (by simp)
    rw [List.cons_append, List.find?_cons_of_neg _ ha]
    exact ih (fun x hx => h x (by simp [hx]))

/-- The `_set_db_field` sequence of `milestone_approve` writes exactly
`approved_at` on the milestone. -/
theorem approveWrites_eq (m : MsRec) (n : Nat) :
    approveWrites m n = ({ m with approvedAt := some n }, ["approved_at"]) := by
  simp [approveWrites, setDbField, milestonePropertyNames, milestoneFieldNames]

/-- C6: approving a delivered Milestone (with no invoice yet, the state the
endpoint itself produces) yields exactly one Invoice for that Milestone —
and re-approving, which the endpoint permits since it never writes
`status`, still leaves exactly one — whose amount is the Milestone's amount
or, when that amount is zero (falsy), the even split of the Agreement total
over the milestone count, whose status is `unpaid`, and whose due date is 3
days after issue; a pending Milestone cannot be approved at all. -/
theorem milestone_approve_invoice_unique
    (s : AgreementSys) (now now2 : Nat)
    (hms : s.ms.status = "delivered")
    (hnone : ∀ i ∈ s.invoices, i.milestoneId ≠ some s.ms.id)
    (hfresh : ∀ i ∈ s.invoices, i.id ≠ s.nextInvId) :
    ((milestoneApproveView s now true).invoices.filter
        (fun i => i.milestoneId = some s.ms.id)).length = 1
    ∧ ((milestoneApproveView (milestoneApproveView s now true) now2 true).invoices.filter
        (fun i => i.milestoneId = some s.ms.id)).length = 1
    ∧ (∀ i ∈ (milestoneApproveView s now true).invoices, i.milestoneId = some s.ms.id →
        i.amount = (if s.ms.amount ≠ 0 then s.ms.amount
                    else if s.total ≠ 0 then evenSplitCents s.total s.msCount else 0)
        ∧ i.status = "unpaid" ∧ i.dueAt = some (now + threeDaysSecs))
    ∧ (∀ (t : AgreementSys) (n : Nat), t.ms.status = "pending" →
        milestoneApproveView t n true = t) := by
  have hfind : findInvoiceFor s.invoices s.ms.id = none := by
    simp only [findInvoiceFor, List.find?_eq_none, decide_eq_true_eq]
    intro i hi
    exact hnone i hi
  set created : InvRec :=
    { id := s.nextInvId, milestoneId := some s.ms.id,
      amount := invoiceAmountFor s.ms.amount s.total s.msCount,
      status := "unpaid", issuedAt := some now,
      dueAt := some (now + threeDaysSecs),
      paidAt := none, method := "", refCode := "" } with hcreated
  have h1 : milestoneApproveView s now true =
      { s with ms := (approveWrites s.ms now).1,
               reqStatus := touchRequestInProgress s.reqStatus,
               invoices := s.invoices ++ [created],
               nextInvId := s.nextInvId + 1 } := by
    simp [milestoneApproveView, hms, hfind, hcreated]
  have hfilter : s.invoices.filter (fun i => i.milestoneId = some s.ms.id) = [] := by
    rw [List.filter_eq_nil_iff]
    intro i hi
    simp only [decide_eq_true_eq]
    exact hnone i hi
  have hlen1 : ((milestoneApproveView s now true).invoices.filter
      (fun i => i.milestoneId = some s.ms.id)).length = 1 := by
    rw [h1]
    simp [List.filter_append, hfilter, hcreated]
  refine ⟨hlen1, ?_, ?_, ?_⟩
  · -- the second approval finds and reuses the invoice created by the first
    have hms1 : (milestoneApproveView s now true).ms.status = "delivered" := by
      rw [h1]
      simp [approveWrites_eq, hms]
    have hfind2 : findInvoiceFor (milestoneApproveView s now true).invoices
        ((milestoneApproveView s now true).ms.id) = some created := by
      rw [h1]
      simp only [approveWrites_eq]
      rw [findInvoiceFor, find?_append_of_forall_not]
      · simp [hcreated]
      · intro i hi
        simp only [decide_eq_true_eq]
        exact hnone i hi
    have h2 : (milestoneApproveView (milestoneApproveView s now true) now2 true).invoices =
        (milestoneApproveView s now true).invoices := by
      rw [milestoneApproveView]
      rw [if_neg (by simp), if_neg (by simp [hms1]), if_neg (by simp [hms1])]
      simp only [hfind2, hcreated]
      rw [h1]
      simp only
      rw [List.map_congr_left, List.map_id]
      intro i hi
      rcases List.mem_append.mp hi with hi1 | hi2
      · have := hfresh i hi1
        simp [hcreated, this]
      · simp only [List.mem_singleton] at hi2
        subst hi2
        simp
    rw [h2, hlen1]
  · intro i hi hmid
    rw [h1] at hi
    simp only at hi
    rcases List.mem_append.mp hi with hi1 | hi2
    · exact absurd hmid (hnone i hi1)
    · simp only [List.mem_singleton] at hi2
      subst hi2
      refine ⟨?_, rfl, rfl⟩
      simp [hcreated, invoiceAmountFor]
  · intro t n ht
    simp [milestoneApproveView, ht]

/-- Witness for `milestone_approve_invoice_unique` on a delivered milestone
of a two-milestone agreement with no invoice yet. -/
theorem milestone_approve_invoice_unique_witness :
    ((milestoneApproveView
        ⟨"in_progress", "accepted", 100000, 2,
         ⟨7, 30000, "delivered", some 1, "done", none, "", none⟩, [], 1⟩
        50 true).invoices.filter (fun i => i.milestoneId = some 7)).length = 1 :=
  (milestone_approve_invoice_unique
    ⟨"in_progress", "accepted", 100000, 2,
     ⟨7, 30000, "delivered", some 1, "done", none, "", none⟩, [], 1⟩
    50 60 rfl (by decide) (by decide)).1

/-- Renumbering the rows does not change their amounts. -/
theorem sumAmounts_assignAutoOrder (l : List MsRow) :
    sumAmounts (assignAutoOrder l) = sumAmounts l := by
  unfold sumAmounts assignAutoOrder
  rw [List.map_map]
  have : (fun r => r.amount) ∘ (fun p : Nat × MsRow => { p.2 with order := p.1 + 1 }) =
      (fun p : Nat × MsRow => p.2.amount) := rfl
  rw [this]
  have h2 : (fun p : Nat × MsRow => p.2.amount) =
      (fun r : MsRow => r.amount) ∘ Prod.snd := rfl
  rw [h2, ← List.map_map, List.enum_map_snd]

/-- A formset that passes `clean` has matching milestone sum and total. -/
theorem formsetClean_none_sum (total : Int) (rows : List MsRow)
    (h : formsetClean total rows = none) :
    sumAmounts (activeRows rows) = total := by
  unfold formsetClean at h
  split at h
  · exact absurd h (by simp)
  · split at h
    · exact absurd h (by simp)
    · split at h
      · exact absurd h (by simp)
      · split at h
        · exact absurd h (by simp)
        · split at h
          · exact absurd h (by simp)
          · next h5 => exact not_ne_iff.mp h5

/-- C1: for a structurally valid formset, send succeeds exactly when the sum
of the non-deleted milestone amounts equals the agreement total in cents;
on mismatch the operation fails with the reconciliation error and changes
nothing (in particular the Agreement status); on match the Agreement
becomes `pending`, the Request becomes `agreement_pending`, and the
renumbered rows are persisted. -/
theorem agreement_edit_send_reconciliation
    (s : EditState) (rows : List MsRow)
    (hne : ¬ (activeRows rows).isEmpty)
    (hord : ¬ (activeRows rows).any (fun r => r.order < 1))
    (hdup : ((activeRows rows).map (fun r => r.order)).eraseDups.length =
            ((activeRows rows).map (fun r => r.order)).length)
    (hamt : ¬ (activeRows rows).any (fun r => r.amount < 0)) :
    ((editSend s rows).2 = none ↔ sumAmounts (activeRows rows) = s.agTotal)
    ∧ (sumAmounts (activeRows rows) ≠ s.agTotal →
        editSend s rows = (s, some EditError.reconciliationMismatch))
    ∧ (sumAmounts (activeRows rows) = s.agTotal →
        (editSend s rows).1.agStatus = "pending"
        ∧ (editSend s rows).1.reqStatus = "agreement_pending"
        ∧ (editSend s rows).1.milestones = assignAutoOrder (activeRows rows)
        ∧ (editSend s rows).2 = none) := by
  have hord2 : ∀ x ∈ activeRows rows, ¬ x.order = 0 := by
    intro x hx h0
    exact hord (List.any_eq_true.mpr ⟨x, hx, by simp [h0]⟩)
  by_cases hsum : sumAmounts (activeRows rows) = s.agTotal
  · have hclean : formsetClean s.agTotal rows = none := by
      simp [formsetClean, hne, hord, hdup, hamt, hsum]
      exact hord2
    have hsum2 : sumAmounts (assignAutoOrder (activeRows rows)) = s.agTotal := by
      rw [sumAmounts_assignAutoOrder]
      exact hsum
    refine ⟨?_, fun hc => absurd hsum hc, fun _ => ?_⟩
    · simp [editSend, hclean, hsum2, hsum]
    · simp [editSend, hclean, hsum2]
  · have hclean : formsetClean s.agTotal rows = some .reconciliationMismatch := by
      simp [formsetClean, hne, hord, hdup, hamt, hsum]
      exact hord2
    refine ⟨?_, fun _ => ?_, fun hc => absurd hc hsum⟩
    · simp [editSend, hclean, hsum]
    · simp [editSend, hclean]

/-- Witness for `agreement_edit_send_reconciliation`: scenario A, second
send — milestones of 300.00 and 700.00 against a 1000.00 total succeed and
drive both statuses. -/
theorem agreement_edit_send_reconciliation_witness :
    (editSend ⟨"draft", 100000, "offer_selected", []⟩
        [⟨30000, 1, false⟩, ⟨70000, 2, false⟩]).1.agStatus = "pending"
    ∧ (editSend ⟨"draft", 100000, "offer_selected", []⟩
        [⟨30000, 1, false⟩, ⟨70000, 2, false⟩]).1.reqStatus = "agreement_pending" := by
  have h := agreement_edit_send_reconciliation ⟨"draft", 100000, "offer_selected", []⟩
    [⟨30000, 1, false⟩, ⟨70000, 2, false⟩] (by decide) (by decide) (by decide) (by decide)
  have h2 := h.2.2 (by decide)
  exact ⟨h2.1, h2.2.1⟩

/-- C8: a send that fails the reconciliation check leaves the state exactly
as it was — the submitted milestone rows are not persisted. (In the source
the formset-level `clean` rejects the mismatch before anything is written;
the view's own in-transaction re-check, which would commit its partial
writes, is unreachable because renumbering preserves the amounts.) -/
theorem edit_send_mismatch_no_writes (s : EditState) (rows : List MsRow)
    (h : (editSend s rows).2 = some EditError.reconciliationMismatch) :
    (editSend s rows).1 = s := by
  cases hc : formsetClean s.agTotal rows with
  | some e => simp [editSend, hc]
  | none =>
    have hsum := formsetClean_none_sum _ _ hc
    have hsum2 : sumAmounts (assignAutoOrder (activeRows rows)) = s.agTotal := by
      rw [sumAmounts_assignAutoOrder]
      exact hsum
    simp [editSend, hc, hsum2] at h

/-- Witness for `edit_send_mismatch_no_writes`: scenario A, first send —
only the 300.00 milestone against a 1000.00 total is rejected and persists
nothing. -/
theorem edit_send_mismatch_no_writes_witness :
    (editSend ⟨"draft", 100000, "offer_selected", []⟩ [⟨30000, 1, false⟩]).1 =
      ⟨"draft", 100000, "offer_selected", []⟩ :=
  edit_send_mismatch_no_writes ⟨"draft", 100000, "offer_selected", []⟩
    [⟨30000, 1, false⟩] (by decide)

/-- C4: selecting a pending offer on a `new`, unassigned request sets that
offer to `selected`, every other offer on the request to `rejected` in the
same step, and updates the request: status `offer_selected`, assigned
employee = the offer's employee, selection timestamp now, agreement
deadline now + 3 days, SLA overdue flag cleared. -/
theorem select_offer_effects
    (req : ReqRec) (offers : List OfferRec) (oid now : Nat) (o1 : OfferRec)
    (hfind : offers.find? (fun o => o.id = oid) = some o1)
    (ho1 : o1.status = "pending")
    (hreq : req.status = "new")
    (hassigned : req.assignedEmployee = none) :
    (selectOffer req offers oid now).1.status = "offer_selected"
    ∧ (selectOffer req offers oid now).1.assignedEmployee = some o1.employee
    ∧ (selectOffer req offers oid now).1.offerSelectedAt = some now
    ∧ (selectOffer req offers oid now).1.agreementDueAt = some (now + threeDaysSecs)
    ∧ (selectOffer req offers oid now).1.slaAgreementOverdue = false
    ∧ (∀ o ∈ (selectOffer req offers oid now).2,
        (o.id = oid → o.status = "selected") ∧ (¬ o.id = oid → o.status = "rejected"))
    ∧ (∃ o ∈ (selectOffer req offers oid now).2, o.id = oid) := by
  have hsel : selectOffer req offers oid now =
      (markOfferSelectedNow req o1.employee now,
       (offers.map (fun o => if o.id = oid then { o with status := "selected" } else o)).map
         (fun o => if ¬ (o.id = oid) then { o with status := "rejected" } else o)) := by
    rw [selectOffer, hfind]
    simp [ho1, hreq, hassigned]
  rw [hsel]
  refine ⟨rfl, rfl, rfl, rfl, rfl, ?_, ?_⟩
  · intro o ho
    obtain ⟨b, hb, hob⟩ := List.mem_map.mp ho
    obtain ⟨a, _, hab⟩ := List.mem_map.mp hb
    constructor
    · intro hid
      subst hob
      by_cases hbid : b.id = oid
      · simp [hbid] at hid ⊢
        subst hab
        by_cases haid : a.id = oid
        · simp [haid]
        · simp [haid] at hbid
      · simp [hbid] at hid
    · intro hid
      subst hob
      by_cases hbid : b.id = oid
      · simp [hbid] at hid
      · simp [hbid]
  · have ho1mem : o1 ∈ offers := List.mem_of_find?_eq_some hfind
    have ho1id : o1.id = oid := by
      have := List.find?_some hfind
      simpa using this
    refine ⟨{ o1 with status := "selected" }, ?_, by simpa using ho1id⟩
    apply List.mem_map.mpr
    refine ⟨{ o1 with status := "selected" }, ?_, by simp [ho1id]⟩
    apply List.mem_map.mpr
    exact ⟨o1, ho1mem, by simp [ho1id]⟩

/-- Witness for `select_offer_effects`: scenario B with two pending offers. -/
theorem select_offer_effects_witness :
    (selectOffer ⟨"new", none, none, none, false⟩
        [⟨1, 11, "pending"⟩, ⟨2, 22, "pending"⟩] 1 500).1.status = "offer_selected"
    ∧ ∀ o ∈ (selectOffer ⟨"new", none, none, none, false⟩
        [⟨1, 11, "pending"⟩, ⟨2, 22, "pending"⟩] 1 500).2,
        (o.id = 1 → o.status = "selected") ∧ (¬ o.id = 1 → o.status = "rejected") := by
  have h := select_offer_effects ⟨"new", none, none, none, false⟩
    [⟨1, 11, "pending"⟩, ⟨2, 22, "pending"⟩] 1 500 ⟨1, 11, "pending"⟩
    (by decide) rfl rfl rfl
  exact ⟨h.1, h.2.2.2.2.2.1⟩

/-- Counterexample to C3 as stated: resolving a dispute on a disputed
request whose invoices are all already paid leaves the request
`in_progress`, not `completed` — the unfreeze performs no completion
re-check. -/
theorem dispute_resolve_no_completion_recheck :
    ((disputeUpdateStatus
        ⟨"open", "disputed", true,
         [⟨1, some 1, 30000, "paid", some 1, none, some 2, "", ""⟩]⟩
        "resolve").invoices.all (fun i => i.status = "paid")) = true
    ∧ (disputeUpdateStatus
        ⟨"open", "disputed", true,
         [⟨1, some 1, 30000, "paid", some 1, none, some 2, "", ""⟩]⟩
        "resolve").reqStatus = "in_progress"
    ∧ ¬ ((disputeUpdateStatus
        ⟨"open", "disputed", true,
         [⟨1, some 1, 30000, "paid", some 1, none, some 2, "", ""⟩]⟩
        "resolve").reqStatus = "completed") := by
  decide

/-- C3 (amended): the resolve and cancel actions set the dispute to
`resolved`/`canceled` and restore a disputed Request to `in_progress` when
an Agreement exists and to `new` otherwise; no completion re-check happens
on unfreeze — the invoices are untouched and the restored status is always
`in_progress`/`new`, even when every invoice is paid. -/
theorem dispute_resolve_cancel_restores_status
    (s : DSys) (action : String)
    (hact : action = "resolve" ∨ action = "cancel")
    (hd : s.reqStatus = "disputed") :
    (disputeUpdateStatus s action).disputeStatus =
      (if action = "resolve" then "resolved" else "canceled")
    ∧ (disputeUpdateStatus s action).reqStatus =
      (if s.hasAgreement then "in_progress" else "new")
    ∧ (disputeUpdateStatus s action).invoices = s.invoices := by
  by_cases hag : s.hasAgreement = true
  · rcases hact with h | h <;> subst h <;>
      simp [disputeUpdateStatus, unfreezeRequest, hd, hag]
  · simp only [Bool.not_eq_true] at hag
    rcases hact with h | h <;> subst h <;>
      simp [disputeUpdateStatus, unfreezeRequest, hd, hag]

/-- Witness for `dispute_resolve_cancel_restores_status`: scenario E tail —
resolving a dispute on a disputed request with an agreement restores
`in_progress`. -/
theorem dispute_resolve_cancel_restores_status_witness :
    (disputeUpdateStatus
      ⟨"open", "disputed", true,
       [⟨1, some 1, 30000, "paid", some 1, none, some 2, "", ""⟩]⟩
      "resolve").reqStatus = "in_progress" := by
  have h := dispute_resolve_cancel_restores_status
    ⟨"open", "disputed", true,
     [⟨1, some 1, 30000, "paid", some 1, none, some 2, "", ""⟩]⟩
    "resolve" (Or.inl rfl) rfl
  simpa using h.2.1

/-- Counterexample to C9 as stated: `request_change_state` moves an
`in_progress` request to `awaiting_review`, which is not among the seven
listed values; moreover the seven listed values are not the declared ones —
the dispute freeze stores `disputed` while `Request.Status` declares
`dispute`. -/
theorem request_status_outside_declared_set :
    requestChangeState "in_progress" "awaiting_review" true = "awaiting_review"
    ∧ ¬ ("awaiting_review" ∈ claimedStatuses)
    ∧ (freezeRequest ⟨"open", "in_progress", true, []⟩).reqStatus = "disputed"
    ∧ ¬ ("disputed" ∈ requestStatusChoices) := by
  decide

/-- C9 (amended): after each modeled operation on a Request whose status is
one of the nine storable values (the spec's seven plus `awaiting_review`
and `awaiting_payment`), the stored status is again one of those nine:
state change, cancellation, dispute freeze and unfreeze, payment-driven
completion, and offer selection never store anything else. -/
theorem request_status_closure
    (cur newState reason : String) (isAdmin : Bool) (d : DSys) (s : Sys)
    (req : ReqRec) (offers : List OfferRec) (oid now : Nat)
    (hcur : cur ∈ storableStatuses)
    (hd : d.reqStatus ∈ storableStatuses)
    (hs : s.reqStatus ∈ storableStatuses)
    (hreq : req.status ∈ storableStatuses) :
    requestChangeState cur newState isAdmin ∈ storableStatuses
    ∧ requestCancel cur reason ∈ storableStatuses
    ∧ (freezeRequest d).reqStatus ∈ storableStatuses
    ∧ (unfreezeRequest d).reqStatus ∈ storableStatuses
    ∧ (completeRequestIfAllPaid s).reqStatus ∈ storableStatuses
    ∧ (selectOffer req offers oid now).1.status ∈ storableStatuses := by
  refine ⟨?_, ?_, ?_, ?_, ?_, ?_⟩
  · unfold requestChangeState
    split
    · exact hcur
    · split
      · decide
      · split
        · next h => rcases h.2 with h2 | h2 <;> subst h2 <;> decide
        · split
          · next h => rcases h.2 with h2 | h2 <;> subst h2 <;> decide
          · split
            · next h => rcases h.2 with h2 | h2 <;> subst h2 <;> decide
            · exact hcur
  · unfold requestCancel
    split
    · exact hcur
    · decide
  · unfold freezeRequest
    split
    · exact (by decide : "disputed" ∈ storableStatuses)
    · exact hd
  · unfold unfreezeRequest
    split
    · split
      · split
        · exact (by decide : "in_progress" ∈ storableStatuses)
        · exact hd
      · split
        · exact (by decide : "new" ∈ storableStatuses)
        · exact hd
    · exact hd
  · unfold completeRequestIfAllPaid
    repeat' split
    all_goals first
      | exact hs
      | exact (by decide : "completed" ∈ storableStatuses)
  · unfold selectOffer
    split
    · exact hreq
    · split
      · exact hreq
      · split
        · exact hreq
        · exact (by decide : "offer_selected" ∈ storableStatuses)

/-- Witness for `request_status_closure` at concrete inputs in the nine
storable values. -/
theorem request_status_closure_witness :
    requestChangeState "in_progress" "awaiting_review" false ∈ storableStatuses := by
  have h := request_status_closure "in_progress" "awaiting_review" "why" false
    ⟨"open", "in_progress", true, []⟩
    ⟨"in_progress", "accepted", [], [], 1⟩
    ⟨"new", none, none, none, false⟩ [] 1 5
    (by decide) (by decide) (by decide) (by decide)
  exact h.1

/-- C2: the payment endpoint can never complete a Request. At scenario D's
final step — an in-progress Request whose Agreement holds one unpaid
milestone-linked invoice, the rest paid — `mark_invoice_paid` crashes on
the `inv.is_paid = True` compatibility write (a setterless property) and
rolls back: the state is returned bit-for-bit unchanged, the invoice stays
unpaid and the Request stays `in_progress`, whereas the (unreachable)
completion helper `_complete_request_if_all_paid` would indeed have
completed the Request from the all-paid state the claim assumes. -/
theorem mark_invoice_paid_cannot_complete_request :
    (markInvoicePaid
      ⟨"in_progress", "accepted",
       [⟨1, 30000, "approved", some 1, "", some 2, "", none⟩],
       [⟨1, some 1, 30000, "unpaid", some 3, none, none, "", ""⟩,
        ⟨2, none, 70000, "paid", some 3, none, some 9, "", ""⟩], 3⟩
      1 "" 100) =
    (⟨"in_progress", "accepted",
      [⟨1, 30000, "approved", some 1, "", some 2, "", none⟩],
      [⟨1, some 1, 30000, "unpaid", some 3, none, none, "", ""⟩,
       ⟨2, none, 70000, "paid", some 3, none, some 9, "", ""⟩], 3⟩,
     PayOutcome.rolledBack)
    ∧ (completeRequestIfAllPaid
        ⟨"in_progress", "accepted",
         [⟨1, 30000, "paid", some 1, "", some 2, "", some 9⟩],
         [⟨1, some 1, 30000, "paid", some 3, none, some 9, "", ""⟩,
          ⟨2, none, 70000, "paid", some 3, none, some 9, "", ""⟩], 3⟩).reqStatus =
      "completed" := by
  decide

/-- C7: there is no "first successful call". Marking an already-paid
invoice takes the early return and modifies nothing (the idempotence half
of the claim holds), but marking an unpaid invoice — here with reference
REF123 — always raises at the `inv.is_paid = True` write and rolls back:
the invoice is still unpaid with empty `method`/`ref_code`, its milestone
is untouched, and the Request is unchanged. -/
theorem mark_invoice_paid_never_pays :
    (markInvoicePaid
      ⟨"in_progress", "accepted",
       [⟨1, 30000, "approved", some 1, "", some 2, "", none⟩],
       [⟨1, some 1, 30000, "paid", some 3, none, some 9, "", "OLD"⟩], 2⟩
      1 "REF123" 100) =
    (⟨"in_progress", "accepted",
      [⟨1, 30000, "approved", some 1, "", some 2, "", none⟩],
      [⟨1, some 1, 30000, "paid", some 3, none, some 9, "", "OLD"⟩], 2⟩,
     PayOutcome.alreadyPaid)
    ∧ (markInvoicePaid
      ⟨"in_progress", "accepted",
       [⟨1, 30000, "approved", some 1, "", some 2, "", none⟩],
       [⟨1, some 1, 30000, "unpaid", some 3, none, none, "", ""⟩], 2⟩
      1 "REF123" 100) =
    (⟨"in_progress", "accepted",
      [⟨1, 30000, "approved", some 1, "", some 2, "", none⟩],
      [⟨1, some 1, 30000, "unpaid", some 3, none, none, "", ""⟩], 2⟩,
     PayOutcome.rolledBack) := by
  decide
